import Mathlib

/-!
Verification of the Metrics Analytics & Gamification Engine of the
`autodes` repository (source: `src/des.py`), a Streamlit dashboard for
daily self-improvement tracking.

The analytics core is embedded shallowly:
* a pandas row becomes a `DailyRecord` of rationals (pandas floats are
  modelled by `ℚ`); a DataFrame becomes a `List DailyRecord` ordered as in
  the sheet;
* the score computation of `save_entry_google` becomes `score_auto`;
* the column renaming and numeric coercion of `load_data` become
  `load_data_row` over `RawRow` (cells that are absent or fail numeric
  parsing are distinguished from numeric cells);
* `calcular_pontos_recompensa`, `previsao_tendencia`,
  `analisar_fatores_influencia`, `verificar_metas` and the rolling mean of
  `calcular_metricas_avancadas` are translated function by function.
-/

/-- One normalized day of metrics: the numeric columns of the sheet after
`load_data` (the date and free-text columns play no role in the analytics
verified here). Pandas floats are modelled by `ℚ`. -/
structure DailyRecord where
  Estudo_min : ℚ
  Organizacao : ℚ
  Treino_min : ℚ
  Bem_estar : ℚ
  Sono_h : ℚ
  Nutricao : ℚ
  Motivacao : ℚ
  Relacoes : ℚ
  Score_diario : ℚ
  deriving Repr, DecidableEq

/-- Mean of a list of rationals, `xs.sum / len` (division by the length;
`ℚ` division by zero yields `0`, mirroring that the callers only take
means of nonempty slices). Models pandas `.mean()`. -/
def listMean (xs : List ℚ) : ℚ := xs.sum / (xs.length : ℚ)

/-- The score computed at save time by `save_entry_google`
(src/des.py lines 209-216): an organization bonus of 10 when
`Organizacao == 1` else 0, summed with the four subjective inputs,
doubled and capped at 100. Inputs come from the entry form as integers
(sliders 1-10, toggle mapped to 1/0). -/
def score_auto (Bem_estar Nutricao Motivacao Relacoes Organizacao : ℤ) : ℤ :=
  let nota_org : ℤ := if Organizacao = 1 then 10 else 0
  let soma_fatores := Bem_estar + Nutricao + Motivacao + Relacoes + nota_org
  min (soma_fatores * 2) 100

/-- C1: for subjective inputs in 1..10 and any boolean adherence flag
(mapped to `1`/`0` as the entry form does), the saved score equals
`min(100, 2*(w+n+m+r+bonus))` with `bonus = 10` iff adhered, lies in
`[0,100]`, and the two spec instances hold: all 7s with adherence give
76, all 10s with adherence give 100. -/
theorem c1_score_formula_and_range
    (w n m r : ℤ) (adhered : Bool)
    (hw : 1 ≤ w ∧ w ≤ 10) (hn : 1 ≤ n ∧ n ≤ 10)
    (hm : 1 ≤ m ∧ m ≤ 10) (hr : 1 ≤ r ∧ r ≤ 10) :
    score_auto w n m r (if adhered then 1 else 0)
        = min 100 (2 * (w + n + m + r + (if adhered then 10 else 0)))
      ∧ 0 ≤ score_auto w n m r (if adhered then 1 else 0)
      ∧ score_auto w n m r (if adhered then 1 else 0) ≤ 100
      ∧ score_auto 7 7 7 7 1 = 76
      ∧ score_auto 10 10 10 10 1 = 100 := by
  obtain ⟨hw1, hw2⟩ := hw
  obtain ⟨hn1, hn2⟩ := hn
  obtain ⟨hm1, hm2⟩ := hm
  obtain ⟨hr1, hr2⟩ := hr
  unfold score_auto
  refine ⟨?_, ?_, ?_, by decide, by decide⟩ <;>
    cases adhered <;> simp <;> omega

/-- Witness for C1 at the concrete input 7,7,7,7 with adherence. -/
theorem c1_score_formula_and_range_witness :
    score_auto 7 7 7 7 (if true then 1 else 0)
        = min 100 (2 * (7 + 7 + 7 + 7 + (if true then 10 else 0)))
      ∧ 0 ≤ score_auto 7 7 7 7 (if true then 1 else 0)
      ∧ score_auto 7 7 7 7 (if true then 1 else 0) ≤ 100
      ∧ score_auto 7 7 7 7 1 = 76
      ∧ score_auto 10 10 10 10 1 = 100 :=
  c1_score_formula_and_range 7 7 7 7 true
    ⟨by decide, by decide⟩ ⟨by decide, by decide⟩
    ⟨by decide, by decide⟩ ⟨by decide, by decide⟩

/-- Scores column of a series, `df["Score_diario"]`. -/
def scoresOf (df : List DailyRecord) : List ℚ := df.map DailyRecord.Score_diario

/-- The gamification engine `calcular_pontos_recompensa` (src/des.py lines
272-312): sequentially accumulates points and achievement names.
`df.tail(7)` is `drop (length - 7)`, `iloc[-14:-7]` is
`(drop (length-14)).take 7`, and `(series >= 70).sum()` counts matching
entries. Returns `(pontos, conquistas)`. -/
def calcular_pontos_recompensa (df : List DailyRecord) : ℚ × List String :=
  let scores := scoresOf df
  let step0 : ℚ × List String := (0, [])
  let step1 :=
    if 7 ≤ df.length then
      let ultimos_7 := scores.drop (df.length - 7)
      let dias_consecutivos := (ultimos_7.filter (fun s => (70 : ℚ) ≤ s)).length
      let s1 := if 7 ≤ dias_consecutivos then
          (step0.1 + 100, step0.2 ++ ["7 dias consecutivos com score >= 70"])
        else step0
      if 14 ≤ df.length then
        let media_primeira_semana := listMean ((scores.drop (df.length - 14)).take 7)
        let media_segunda_semana := listMean (scores.drop (df.length - 7))
        if media_primeira_semana + 5 < media_segunda_semana then
          (s1.1 + 50, s1.2 ++ ["Melhoria consistente nas ultimas 2 semanas"])
        else s1
      else s1
    else step0
  let total_estudo := (df.map DailyRecord.Estudo_min).sum
  let step2 := if 10000 < total_estudo then
      (step1.1 + 50, step1.2 ++ ["+10000 minutos de estudo acumulado"])
    else step1
  let total_treino := (df.map DailyRecord.Treino_min).sum
  let step3 := if 3000 < total_treino then
      (step2.1 + 30, step2.2 ++ ["+3000 minutos de treino acumulado"])
    else step2
  let dias_organizados := (df.map DailyRecord.Organizacao).sum
  let step4 := if 30 ≤ dias_organizados then
      (step3.1 + 40, step3.2 ++ ["+30 dias organizados"])
    else step3
  step4

/-- Bonus contributed by the 7-day consistency achievement. -/
def bonus_consistencia (df : List DailyRecord) : ℚ :=
  if 7 ≤ df.length ∧
      7 ≤ (((scoresOf df).drop (df.length - 7)).filter (fun s => (70 : ℚ) ≤ s)).length
  then 100 else 0

/-- Bonus contributed by the 2-week improvement achievement. -/
def bonus_melhoria (df : List DailyRecord) : ℚ :=
  if 7 ≤ df.length ∧ 14 ≤ df.length ∧
      listMean (((scoresOf df).drop (df.length - 14)).take 7) + 5 <
        listMean ((scoresOf df).drop (df.length - 7))
  then 50 else 0

/-- Bonus contributed by the 10000+ study minutes achievement. -/
def bonus_estudo (df : List DailyRecord) : ℚ :=
  if 10000 < (df.map DailyRecord.Estudo_min).sum then 50 else 0

/-- Bonus contributed by the 3000+ exercise minutes achievement. -/
def bonus_treino (df : List DailyRecord) : ℚ :=
  if 3000 < (df.map DailyRecord.Treino_min).sum then 30 else 0

/-- Bonus contributed by the 30+ organized days achievement. -/
def bonus_organizacao (df : List DailyRecord) : ℚ :=
  if 30 ≤ (df.map DailyRecord.Organizacao).sum then 40 else 0

/-- The points returned by the engine decompose as the sum of the five
achievement bonuses. -/
theorem pontos_decomp (df : List DailyRecord) :
    (calcular_pontos_recompensa df).1 =
      bonus_consistencia df + bonus_melhoria df + bonus_estudo df +
        bonus_treino df + bonus_organizacao df := by
  by_cases h7 : 7 ≤ df.length <;>
    by_cases hc : 7 ≤ (((scoresOf df).drop (df.length - 7)).filter
        (fun s => (70 : ℚ) ≤ s)).length <;>
    by_cases h14 : 14 ≤ df.length <;>
    by_cases hm : listMean (((scoresOf df).drop (df.length - 14)).take 7) + 5 <
        listMean ((scoresOf df).drop (df.length - 7)) <;>
    by_cases he : 10000 < (df.map DailyRecord.Estudo_min).sum <;>
    by_cases ht : 3000 < (df.map DailyRecord.Treino_min).sum <;>
    by_cases ho : 30 ≤ (df.map DailyRecord.Organizacao).sum <;>
    simp [calcular_pontos_recompensa, bonus_consistencia, bonus_melhoria,
      bonus_estudo, bonus_treino, bonus_organizacao,
      h7, hc, h14, hm, he, ht, ho]

/-- The achievement list returned by the engine decomposes as the
concatenation of five optional singletons, one per achievement. -/
theorem conquistas_decomp (df : List DailyRecord) :
    (calcular_pontos_recompensa df).2 =
      (if 7 ≤ df.length ∧
          7 ≤ (((scoresOf df).drop (df.length - 7)).filter (fun s => (70 : ℚ) ≤ s)).length
        then ["7 dias consecutivos com score >= 70"] else []) ++
      (if 7 ≤ df.length ∧ 14 ≤ df.length ∧
          listMean (((scoresOf df).drop (df.length - 14)).take 7) + 5 <
            listMean ((scoresOf df).drop (df.length - 7))
        then ["Melhoria consistente nas ultimas 2 semanas"] else []) ++
      (if 10000 < (df.map DailyRecord.Estudo_min).sum
        then ["+10000 minutos de estudo acumulado"] else []) ++
      (if 3000 < (df.map DailyRecord.Treino_min).sum
        then ["+3000 minutos de treino acumulado"] else []) ++
      (if 30 ≤ (df.map DailyRecord.Organizacao).sum
        then ["+30 dias organizados"] else []) := by
  by_cases h7 : 7 ≤ df.length <;>
    by_cases hc : 7 ≤ (((scoresOf df).drop (df.length - 7)).filter
        (fun s => (70 : ℚ) ≤ s)).length <;>
    by_cases h14 : 14 ≤ df.length <;>
    by_cases hm : listMean (((scoresOf df).drop (df.length - 14)).take 7) + 5 <
        listMean ((scoresOf df).drop (df.length - 7)) <;>
    by_cases he : 10000 < (df.map DailyRecord.Estudo_min).sum <;>
    by_cases ht : 3000 < (df.map DailyRecord.Treino_min).sum <;>
    by_cases ho : 30 ≤ (df.map DailyRecord.Organizacao).sum <;>
    simp [calcular_pontos_recompensa, h7, hc, h14, hm, he, ht, ho]

/-- XP bonus value carried by each achievement name. -/
def bonusOf : String → ℚ
  | "7 dias consecutivos com score >= 70" => 100
  | "Melhoria consistente nas ultimas 2 semanas" => 50
  | "+10000 minutos de estudo acumulado" => 50
  | "+3000 minutos de treino acumulado" => 30
  | "+30 dias organizados" => 40
  | _ => 0

/-- The XP total as the specification describes it:
`xp = floor(total_study_minutes/30) + floor(total_exercise_minutes/30) +
floor(sum(daily_score)/10) + achievement_bonuses`. This definition follows
the words of the spec, for comparison with the
`calcular_pontos_recompensa`. -/
def spec_xp (df : List DailyRecord) : ℚ :=
  ((⌊(df.map DailyRecord.Estudo_min).sum / 30⌋ +
    ⌊(df.map DailyRecord.Treino_min).sum / 30⌋ +
    ⌊(scoresOf df).sum / 10⌋ : ℤ) : ℚ) +
  (bonus_consistencia df + bonus_melhoria df + bonus_estudo df +
    bonus_treino df + bonus_organizacao df)

/-- A day with 60 study minutes and score 50 (all other fields 0). -/
def recEstudo : DailyRecord := ⟨60, 0, 0, 0, 0, 0, 0, 0, 50⟩

/-- A day with score 70 (all other fields 0). -/
def rec70 : DailyRecord := ⟨0, 0, 0, 0, 0, 0, 0, 0, 70⟩

/-- A day with every field 0. -/
def recZero : DailyRecord := ⟨0, 0, 0, 0, 0, 0, 0, 0, 0⟩

/-- Seven consecutive days at score 70. -/
def seteDias70 : List DailyRecord := List.replicate 7 rec70

/-- Column sum over an appended singleton. -/
theorem sum_col_append (f : DailyRecord → ℚ) (s : List DailyRecord)
    (r : DailyRecord) : ((s ++ [r]).map f).sum = (s.map f).sum + f r := by
  simp

/-- The study achievement is listed iff the study total exceeds 10000. -/
theorem mem_conquista_estudo_iff (df : List DailyRecord) :
    "+10000 minutos de estudo acumulado" ∈ (calcular_pontos_recompensa df).2 ↔
      10000 < (df.map DailyRecord.Estudo_min).sum := by
  rw [conquistas_decomp]
  split_ifs <;> simp_all

/-- The exercise achievement is listed iff the exercise total exceeds 3000. -/
theorem mem_conquista_treino_iff (df : List DailyRecord) :
    "+3000 minutos de treino acumulado" ∈ (calcular_pontos_recompensa df).2 ↔
      3000 < (df.map DailyRecord.Treino_min).sum := by
  rw [conquistas_decomp]
  split_ifs <;> simp_all

/-- The organization achievement is listed iff at least 30 organized days. -/
theorem mem_conquista_organizacao_iff (df : List DailyRecord) :
    "+30 dias organizados" ∈ (calcular_pontos_recompensa df).2 ↔
      30 ≤ (df.map DailyRecord.Organizacao).sum := by
  rw [conquistas_decomp]
  split_ifs <;> simp_all

/-- C2 (counterexample): on the single-record series with 60 study minutes
and score 50 the engine returns 0 XP, while the formula of the spec gives
`floor(60/30) + floor(0/30) + floor(50/10) + 0 = 7`. -/
theorem c2_counterexample :
    (calcular_pontos_recompensa [recEstudo]).1 ≠ spec_xp [recEstudo] := by
  have h1 : (calcular_pontos_recompensa [recEstudo]).1 = 0 := by
    norm_num [calcular_pontos_recompensa, scoresOf, recEstudo, listMean]
  have h2 : spec_xp [recEstudo] = 7 := by
    have hb : bonus_consistencia [recEstudo] = 0 ∧ bonus_melhoria [recEstudo] = 0
        ∧ bonus_estudo [recEstudo] = 0 ∧ bonus_treino [recEstudo] = 0
        ∧ bonus_organizacao [recEstudo] = 0 := by
      norm_num [bonus_consistencia, bonus_melhoria, bonus_estudo, bonus_treino,
        bonus_organizacao, scoresOf, recEstudo, listMean]
    rw [spec_xp, hb.1, hb.2.1, hb.2.2.1, hb.2.2.2.1, hb.2.2.2.2]
    norm_num [recEstudo, scoresOf]
  rw [h1, h2]
  norm_num

/-- C2 (amended): the XP of the engine contains no volume-based terms — it is
exactly the sum of the five achievement bonuses, so the formula of the spec
exceeds it by the three volume floors. -/
theorem c2_xp_has_no_volume_terms (df : List DailyRecord) :
    (calcular_pontos_recompensa df).1 =
      bonus_consistencia df + bonus_melhoria df + bonus_estudo df +
        bonus_treino df + bonus_organizacao df
    ∧ spec_xp df =
      ((⌊(df.map DailyRecord.Estudo_min).sum / 30⌋ +
        ⌊(df.map DailyRecord.Treino_min).sum / 30⌋ +
        ⌊(scoresOf df).sum / 10⌋ : ℤ) : ℚ) +
        (calcular_pontos_recompensa df).1 := by
  refine ⟨pontos_decomp df, ?_⟩
  rw [spec_xp, pontos_decomp]

/-- C4 (counterexample): appending an all-zero day to seven days at score
70 strictly decreases the XP of the engine (100 to 0) and revokes the 7-day
consistency achievement. -/
theorem c4_counterexample :
    (calcular_pontos_recompensa (seteDias70 ++ [recZero])).1 <
        (calcular_pontos_recompensa seteDias70).1
    ∧ "7 dias consecutivos com score >= 70" ∈
        (calcular_pontos_recompensa seteDias70).2
    ∧ "7 dias consecutivos com score >= 70" ∉
        (calcular_pontos_recompensa (seteDias70 ++ [recZero])).2 := by
  have h1 : calcular_pontos_recompensa seteDias70 =
      (100, ["7 dias consecutivos com score >= 70"]) := by
    norm_num [calcular_pontos_recompensa, scoresOf, seteDias70, rec70, listMean,
      List.replicate_succ]
  have h2 : calcular_pontos_recompensa (seteDias70 ++ [recZero]) = (0, []) := by
    norm_num [calcular_pontos_recompensa, scoresOf, seteDias70, rec70, recZero,
      listMean, List.replicate_succ]
  rw [h1, h2]
  norm_num

/-- C4 (amended): the cumulative-total achievements (10000+ study minutes,
3000+ exercise minutes, 30+ organized days) are never revoked by appending
a record with non-negative study/exercise/organization fields, and their
bonuses never decrease; the recency-window achievements do not share this
property (see the counterexample). -/
theorem c4_cumulative_achievements_monotone (s : List DailyRecord)
    (r : DailyRecord) (he : 0 ≤ r.Estudo_min) (ht : 0 ≤ r.Treino_min)
    (ho : 0 ≤ r.Organizacao) :
    bonus_estudo s ≤ bonus_estudo (s ++ [r])
    ∧ bonus_treino s ≤ bonus_treino (s ++ [r])
    ∧ bonus_organizacao s ≤ bonus_organizacao (s ++ [r])
    ∧ ("+10000 minutos de estudo acumulado" ∈ (calcular_pontos_recompensa s).2 →
        "+10000 minutos de estudo acumulado" ∈
          (calcular_pontos_recompensa (s ++ [r])).2)
    ∧ ("+3000 minutos de treino acumulado" ∈ (calcular_pontos_recompensa s).2 →
        "+3000 minutos de treino acumulado" ∈
          (calcular_pontos_recompensa (s ++ [r])).2)
    ∧ ("+30 dias organizados" ∈ (calcular_pontos_recompensa s).2 →
        "+30 dias organizados" ∈ (calcular_pontos_recompensa (s ++ [r])).2) := by
  have hE := sum_col_append DailyRecord.Estudo_min s r
  have hT := sum_col_append DailyRecord.Treino_min s r
  have hO := sum_col_append DailyRecord.Organizacao s r
  refine ⟨?_, ?_, ?_, ?_, ?_, ?_⟩
  · unfold bonus_estudo
    rw [hE]
    split_ifs <;> linarith
  · unfold bonus_treino
    rw [hT]
    split_ifs <;> linarith
  · unfold bonus_organizacao
    rw [hO]
    split_ifs <;> linarith
  · intro hmem
    rw [mem_conquista_estudo_iff] at hmem ⊢
    rw [hE]
    linarith
  · intro hmem
    rw [mem_conquista_treino_iff] at hmem ⊢
    rw [hT]
    linarith
  · intro hmem
    rw [mem_conquista_organizacao_iff] at hmem ⊢
    rw [hO]
    linarith

/-- Witness for the amended C4 at the empty series and the all-zero day. -/
theorem c4_cumulative_achievements_monotone_witness :
    bonus_estudo [] ≤ bonus_estudo ([] ++ [recZero])
    ∧ bonus_treino [] ≤ bonus_treino ([] ++ [recZero])
    ∧ bonus_organizacao [] ≤ bonus_organizacao ([] ++ [recZero])
    ∧ ("+10000 minutos de estudo acumulado" ∈ (calcular_pontos_recompensa []).2 →
        "+10000 minutos de estudo acumulado" ∈
          (calcular_pontos_recompensa ([] ++ [recZero])).2)
    ∧ ("+3000 minutos de treino acumulado" ∈ (calcular_pontos_recompensa []).2 →
        "+3000 minutos de treino acumulado" ∈
          (calcular_pontos_recompensa ([] ++ [recZero])).2)
    ∧ ("+30 dias organizados" ∈ (calcular_pontos_recompensa []).2 →
        "+30 dias organizados" ∈ (calcular_pontos_recompensa ([] ++ [recZero])).2) :=
  c4_cumulative_achievements_monotone [] recZero (by norm_num [recZero])
    (by norm_num [recZero]) (by norm_num [recZero])

/-- C10: for every series the XP of the engine equals the sum of the bonus
values of exactly the achievements it returns, and is bounded: it lies in
`[0, 270]` no matter how many records the series has. -/
theorem c10_xp_is_achievement_bonuses_and_bounded (df : List DailyRecord) :
    (calcular_pontos_recompensa df).1 =
        (((calcular_pontos_recompensa df).2).map bonusOf).sum
    ∧ 0 ≤ (calcular_pontos_recompensa df).1
    ∧ (calcular_pontos_recompensa df).1 ≤ 270 := by
  rw [pontos_decomp, conquistas_decomp]
  simp only [bonus_consistencia, bonus_melhoria, bonus_estudo, bonus_treino,
    bonus_organizacao]
  split_ifs <;> simp [bonusOf] <;> norm_num

/-- A raw spreadsheet cell as seen by `load_data`: either a value that
`pd.to_numeric` with errors="coerce" parses to a number, or one it cannot
parse (which becomes NaN and is then filled with 0.0). -/
inductive RawValue
  | num (q : ℚ)
  | malformed
  deriving Repr, DecidableEq

/-- A raw sheet row restricted to the numeric columns (plus the legacy
hour-based study column). `none` models a column absent from the sheet. -/
structure RawRow where
  Estudo_min : Option RawValue
  Estudo_h : Option RawValue
  Organizacao : Option RawValue
  Treino_min : Option RawValue
  Bem_estar : Option RawValue
  Sono_h : Option RawValue
  Nutricao : Option RawValue
  Motivacao : Option RawValue
  Relacoes : Option RawValue
  Score_diario : Option RawValue
  deriving Repr, DecidableEq

/-- `pd.to_numeric` with errors="coerce" then `.fillna(0.0)` on one cell, with
the `df[col] = 0` default for an absent column (src/des.py lines 193-196). -/
def coerceCell : Option RawValue → ℚ
  | none => 0
  | some (RawValue.num q) => q
  | some RawValue.malformed => 0

/-- The normalization performed by `load_data` (src/des.py lines 183-196)
on one row: when the legacy hour-based column `Estudo_h` is present it is
renamed to `Estudo_min` with the value taken verbatim (the code performs
`df.rename(columns=...)` and no unit conversion), and every numeric column
is coerced with `to_numeric` errors="coerce" and `.fillna(0.0)`, absent columns
defaulting to 0. -/
def load_data_row (r : RawRow) : DailyRecord where
  Estudo_min := coerceCell (if r.Estudo_h.isSome then r.Estudo_h else r.Estudo_min)
  Organizacao := coerceCell r.Organizacao
  Treino_min := coerceCell r.Treino_min
  Bem_estar := coerceCell r.Bem_estar
  Sono_h := coerceCell r.Sono_h
  Nutricao := coerceCell r.Nutricao
  Motivacao := coerceCell r.Motivacao
  Relacoes := coerceCell r.Relacoes
  Score_diario := coerceCell r.Score_diario

/-- A raw row whose only populated cell is the legacy `Estudo_h` column
holding 2 (two hours of study under the old schema). -/
def rawHoras : RawRow :=
  ⟨none, some (RawValue.num 2), none, none, none, none, none, none, none, none⟩

/-- A raw row whose only populated cell is `Estudo_min` holding -5. -/
def rawNegativo : RawRow :=
  ⟨some (RawValue.num (-5)), none, none, none, none, none, none, none, none, none⟩

/-- C3: on a row where the minute-based study column is absent and the
legacy hour-based column holds 2, normalization outputs study minutes 2 —
the old value verbatim — and not 2×60 as the hours-to-minutes conversion
described by the spec would give. -/
theorem c3_hours_column_renamed_without_conversion :
    (load_data_row rawHoras).Estudo_min = 2
    ∧ (load_data_row rawHoras).Estudo_min ≠ 2 * 60 := by
  constructor <;> norm_num [load_data_row, rawHoras, coerceCell]

/-- C6 (counterexample): a raw row carrying the numeric value -5 in the
study column normalizes to a record whose study minutes are negative. -/
theorem c6_counterexample : (load_data_row rawNegativo).Estudo_min < 0 := by
  norm_num [load_data_row, rawNegativo, coerceCell]

/-- A cell is non-negative: every numeric value it may hold is `≥ 0`. -/
def cellNonneg (c : Option RawValue) : Prop :=
  ∀ q : ℚ, c = some (RawValue.num q) → 0 ≤ q

/-- A cell that is absent or fails numeric parsing. -/
def cellVazia (c : Option RawValue) : Prop :=
  c = none ∨ c = some RawValue.malformed

/-- Coercion of a non-negative cell is non-negative. -/
theorem coerceCell_nonneg (c : Option RawValue) (h : cellNonneg c) :
    0 ≤ coerceCell c := by
  rcases c with _ | v
  · norm_num [coerceCell]
  · rcases v with q | _
    · exact h q rfl
    · norm_num [coerceCell]

/-- Coercion of an absent or malformed cell is 0. -/
theorem coerceCell_vazia (c : Option RawValue) (h : cellVazia c) :
    coerceCell c = 0 := by
  rcases h with h | h <;> rw [h] <;> rfl

/-- C6 (amended): normalization coerces absent and malformed cells to 0.0
— a row with no parsable cell at all normalizes to the all-zero record —
and the output fields are non-negative provided every numeric value
actually present in the row is non-negative; arbitrary negative numeric
inputs, however, pass through unchanged (see the counterexample). -/
theorem c6_missing_malformed_coerce_to_zero_nonneg_conditional (r : RawRow)
    (h1 : cellNonneg r.Estudo_min) (h2 : cellNonneg r.Estudo_h)
    (h3 : cellNonneg r.Organizacao) (h4 : cellNonneg r.Treino_min)
    (h5 : cellNonneg r.Bem_estar) (h6 : cellNonneg r.Sono_h)
    (h7 : cellNonneg r.Nutricao) (h8 : cellNonneg r.Motivacao)
    (h9 : cellNonneg r.Relacoes) (h10 : cellNonneg r.Score_diario) :
    (0 ≤ (load_data_row r).Estudo_min ∧ 0 ≤ (load_data_row r).Organizacao
      ∧ 0 ≤ (load_data_row r).Treino_min ∧ 0 ≤ (load_data_row r).Bem_estar
      ∧ 0 ≤ (load_data_row r).Sono_h ∧ 0 ≤ (load_data_row r).Nutricao
      ∧ 0 ≤ (load_data_row r).Motivacao ∧ 0 ≤ (load_data_row r).Relacoes
      ∧ 0 ≤ (load_data_row r).Score_diario)
    ∧ ((cellVazia r.Estudo_min ∧ cellVazia r.Estudo_h ∧ cellVazia r.Organizacao
        ∧ cellVazia r.Treino_min ∧ cellVazia r.Bem_estar ∧ cellVazia r.Sono_h
        ∧ cellVazia r.Nutricao ∧ cellVazia r.Motivacao ∧ cellVazia r.Relacoes
        ∧ cellVazia r.Score_diario) →
      load_data_row r = ⟨0, 0, 0, 0, 0, 0, 0, 0, 0⟩) := by
  constructor
  · refine ⟨?_, coerceCell_nonneg _ h3, coerceCell_nonneg _ h4,
      coerceCell_nonneg _ h5, coerceCell_nonneg _ h6, coerceCell_nonneg _ h7,
      coerceCell_nonneg _ h8, coerceCell_nonneg _ h9, coerceCell_nonneg _ h10⟩
    show 0 ≤ coerceCell (if r.Estudo_h.isSome then r.Estudo_h else r.Estudo_min)
    split_ifs
    · exact coerceCell_nonneg _ h2
    · exact coerceCell_nonneg _ h1
  · rintro ⟨v1, v2, v3, v4, v5, v6, v7, v8, v9, v10⟩
    have hs : coerceCell (if r.Estudo_h.isSome then r.Estudo_h else r.Estudo_min) = 0 := by
      split_ifs
      · exact coerceCell_vazia _ v2
      · exact coerceCell_vazia _ v1
    unfold load_data_row
    rw [hs, coerceCell_vazia _ v3, coerceCell_vazia _ v4, coerceCell_vazia _ v5,
      coerceCell_vazia _ v6, coerceCell_vazia _ v7, coerceCell_vazia _ v8,
      coerceCell_vazia _ v9, coerceCell_vazia _ v10]

/-- Witness for the amended C6 at the fully absent row. -/
theorem c6_missing_malformed_coerce_witness :
    (0 ≤ (load_data_row ⟨none, none, none, none, none, none, none, none, none, none⟩).Estudo_min
      ∧ 0 ≤ (load_data_row ⟨none, none, none, none, none, none, none, none, none, none⟩).Organizacao
      ∧ 0 ≤ (load_data_row ⟨none, none, none, none, none, none, none, none, none, none⟩).Treino_min
      ∧ 0 ≤ (load_data_row ⟨none, none, none, none, none, none, none, none, none, none⟩).Bem_estar
      ∧ 0 ≤ (load_data_row ⟨none, none, none, none, none, none, none, none, none, none⟩).Sono_h
      ∧ 0 ≤ (load_data_row ⟨none, none, none, none, none, none, none, none, none, none⟩).Nutricao
      ∧ 0 ≤ (load_data_row ⟨none, none, none, none, none, none, none, none, none, none⟩).Motivacao
      ∧ 0 ≤ (load_data_row ⟨none, none, none, none, none, none, none, none, none, none⟩).Relacoes
      ∧ 0 ≤ (load_data_row ⟨none, none, none, none, none, none, none, none, none, none⟩).Score_diario)
    ∧ ((cellVazia (none : Option RawValue) ∧ cellVazia (none : Option RawValue)
        ∧ cellVazia (none : Option RawValue) ∧ cellVazia (none : Option RawValue)
        ∧ cellVazia (none : Option RawValue) ∧ cellVazia (none : Option RawValue)
        ∧ cellVazia (none : Option RawValue) ∧ cellVazia (none : Option RawValue)
        ∧ cellVazia (none : Option RawValue) ∧ cellVazia (none : Option RawValue)) →
      load_data_row ⟨none, none, none, none, none, none, none, none, none, none⟩
        = ⟨0, 0, 0, 0, 0, 0, 0, 0, 0⟩) :=
  c6_missing_malformed_coerce_to_zero_nonneg_conditional
    ⟨none, none, none, none, none, none, none, none, none, none⟩
    (fun q h => by cases h) (fun q h => by cases h) (fun q h => by cases h)
    (fun q h => by cases h) (fun q h => by cases h) (fun q h => by cases h)
    (fun q h => by cases h) (fun q h => by cases h) (fun q h => by cases h)
    (fun q h => by cases h)

/-- Goal targets held in `st.session_state.metas`; fields are the seven
recognized goal keys. -/
structure Metas where
  estudo : ℚ
  treino : ℚ
  sono : ℚ
  score : ℚ
  nutricao : ℚ
  motivacao : ℚ
  organizacao : ℚ
  deriving Repr, DecidableEq

/-- The default goal set initialized by `carregar_metas` (src/des.py
lines 427-439). -/
def metas_padrao : Metas := ⟨240, 60, 8, 70, 7, 7, 5⟩

/-- One entry of the dict returned by `verificar_metas`:
a dict with keys meta, real and atingido, where atingido is real >= meta. -/
structure MetaResultado where
  meta : ℚ
  real : ℚ
  atingido : Bool
  deriving Repr, DecidableEq

/-- Builds one goal entry the way every branch of `verificar_metas` does:
achieved iff the observed value reaches the target. -/
def resultadoMeta (meta real : ℚ) : MetaResultado :=
  ⟨meta, real, decide (meta ≤ real)⟩

/-- `df.tail(7) if len(df) >= 7 else df`: the slice `verificar_metas`
evaluates every goal over. -/
def ultimaSemana (df : List DailyRecord) : List DailyRecord :=
  if 7 ≤ df.length then df.drop (df.length - 7) else df

/-- The goal tracker `verificar_metas` (src/des.py lines 441-476): empty
series give the empty dict; otherwise five goals are reported, each
compared over the last week — means for study, exercise, sleep and score,
sum for organization. The dict is modelled as an association list in the
insertion order of the code. -/
def verificar_metas (df : List DailyRecord) (metas : Metas) :
    List (String × MetaResultado) :=
  if df.length = 0 then []
  else
    let ultima_semana := ultimaSemana df
    [("estudo",
        resultadoMeta metas.estudo (listMean (ultima_semana.map DailyRecord.Estudo_min))),
     ("treino",
        resultadoMeta metas.treino (listMean (ultima_semana.map DailyRecord.Treino_min))),
     ("sono",
        resultadoMeta metas.sono (listMean (ultima_semana.map DailyRecord.Sono_h))),
     ("score",
        resultadoMeta metas.score (listMean (ultima_semana.map DailyRecord.Score_diario))),
     ("organizacao",
        resultadoMeta metas.organizacao ((ultima_semana.map DailyRecord.Organizacao).sum))]

/-- C5 (counterexample): on a concrete non-empty series with the default
goal set, the result of `verificar_metas` carries no nutrition goal at
all, contradicting the claim that all seven recognized goals are
reported. -/
theorem c5_counterexample :
    "nutricao" ∉ (verificar_metas [rec70] metas_padrao).map Prod.fst := by
  have h : (verificar_metas [rec70] metas_padrao).map Prod.fst =
      ["estudo", "treino", "sono", "score", "organizacao"] := by
    simp [verificar_metas]
  rw [h]
  decide

/-- C5 (amended): for every non-empty series and goal set,
`verificar_metas` reports exactly the five goals study, exercise, sleep,
score and organization — nutrition and motivation are never checked —
with the achieved value being the mean (sum, for organization) of the
corresponding metric over the last 7 records (all records when fewer
than 7 exist). -/
theorem c5_five_goals_reported (df : List DailyRecord) (metas : Metas)
    (h : df ≠ []) :
    verificar_metas df metas =
      [("estudo",
          resultadoMeta metas.estudo (listMean ((ultimaSemana df).map DailyRecord.Estudo_min))),
       ("treino",
          resultadoMeta metas.treino (listMean ((ultimaSemana df).map DailyRecord.Treino_min))),
       ("sono",
          resultadoMeta metas.sono (listMean ((ultimaSemana df).map DailyRecord.Sono_h))),
       ("score",
          resultadoMeta metas.score (listMean ((ultimaSemana df).map DailyRecord.Score_diario))),
       ("organizacao",
          resultadoMeta metas.organizacao (((ultimaSemana df).map DailyRecord.Organizacao).sum))]
    ∧ "nutricao" ∉ (verificar_metas df metas).map Prod.fst
    ∧ "motivacao" ∉ (verificar_metas df metas).map Prod.fst := by
  have hlen : df.length ≠ 0 := by
    simpa [List.length_eq_zero] using h
  refine ⟨?_, ?_, ?_⟩ <;> simp [verificar_metas, hlen]

/-- Witness for the amended C5 at a concrete one-record series. -/
theorem c5_five_goals_reported_witness :
    verificar_metas [rec70] metas_padrao =
      [("estudo",
          resultadoMeta metas_padrao.estudo (listMean ((ultimaSemana [rec70]).map DailyRecord.Estudo_min))),
       ("treino",
          resultadoMeta metas_padrao.treino (listMean ((ultimaSemana [rec70]).map DailyRecord.Treino_min))),
       ("sono",
          resultadoMeta metas_padrao.sono (listMean ((ultimaSemana [rec70]).map DailyRecord.Sono_h))),
       ("score",
          resultadoMeta metas_padrao.score (listMean ((ultimaSemana [rec70]).map DailyRecord.Score_diario))),
       ("organizacao",
          resultadoMeta metas_padrao.organizacao (((ultimaSemana [rec70]).map DailyRecord.Organizacao).sum))]
    ∧ "nutricao" ∉ (verificar_metas [rec70] metas_padrao).map Prod.fst
    ∧ "motivacao" ∉ (verificar_metas [rec70] metas_padrao).map Prod.fst :=
  c5_five_goals_reported [rec70] metas_padrao (by simp)

/-- A day with score 60 (all other fields 0). -/
def rec60 : DailyRecord := ⟨0, 0, 0, 0, 0, 0, 0, 0, 60⟩

/-- A day with score 80 (all other fields 0). -/
def rec80 : DailyRecord := ⟨0, 0, 0, 0, 0, 0, 0, 0, 80⟩

/-- Three days with scores 60, 70, 80. -/
def tresDias : List DailyRecord := [rec60, rec70, rec80]

/-- `df["Score_diario"].rolling(7, min_periods=1).mean()` as computed by
`calcular_metricas_avancadas` (src/des.py line 247): entry `i` is the mean
of the trailing window of at most 7 scores ending at position `i`;
`min_periods=1` makes the first entries average whatever exists. -/
def media_movel_7 (df : List DailyRecord) : List ℚ :=
  (List.range df.length).map (fun i =>
    listMean (((scoresOf df).take (i + 1)).drop (i + 1 - 7)))

/-- C9: the rolling series has one entry per record; at position `i` the
trailing window holds exactly `min(i+1, 7)` scores, the entry equals their
sum divided by `min(i+1, 7)`, and that count is positive — the value is
never undefined. -/
theorem c9_rolling_average_trailing_window (df : List DailyRecord) (i : ℕ)
    (hi : i < df.length) :
    (media_movel_7 df).length = df.length
    ∧ (((scoresOf df).take (i + 1)).drop (i + 1 - 7)).length = min (i + 1) 7
    ∧ (media_movel_7 df).getD i 0 =
        (((scoresOf df).take (i + 1)).drop (i + 1 - 7)).sum / ((min (i + 1) 7 : ℕ) : ℚ)
    ∧ 0 < min (i + 1) 7 := by
  have hsl : (((scoresOf df).take (i + 1)).drop (i + 1 - 7)).length = min (i + 1) 7 := by
    simp [scoresOf]
    omega
  refine ⟨by simp [media_movel_7], hsl, ?_, by omega⟩
  have hget : (media_movel_7 df).getD i 0 =
      listMean (((scoresOf df).take (i + 1)).drop (i + 1 - 7)) := by
    simp [media_movel_7, List.getD_eq_getElem?_getD, List.getElem?_map,
      List.getElem?_range, hi]
  rw [hget, listMean, hsl]

/-- Witness for C9 at the third record of the series with scores
[60, 70, 80]; the whole rolling series evaluates to [60, 65, 70]. -/
theorem c9_rolling_average_trailing_window_witness :
    ((media_movel_7 tresDias).length = tresDias.length
    ∧ (((scoresOf tresDias).take (2 + 1)).drop (2 + 1 - 7)).length = min (2 + 1) 7
    ∧ (media_movel_7 tresDias).getD 2 0 =
        (((scoresOf tresDias).take (2 + 1)).drop (2 + 1 - 7)).sum / ((min (2 + 1) 7 : ℕ) : ℚ)
    ∧ 0 < min (2 + 1) 7)
    ∧ media_movel_7 tresDias = [60, 65, 70] :=
  ⟨c9_rolling_average_trailing_window tresDias 2 (by simp [tresDias]),
   by norm_num [media_movel_7, scoresOf, tresDias, rec60, rec70, rec80,
     listMean, List.range_succ]⟩

/-- Ordinary least-squares slope of `ys` against `x = 0, 1, ..., len-1`:
the value `np.polyfit(x, ultimos_scores, 1)[0]` computes for these inputs
(for distinct x the degree-1 polyfit is exactly the least-squares line, so
no numerical failure path is taken). -/
def lsSlope (ys : List ℚ) : ℚ :=
  let n : ℚ := (ys.length : ℚ)
  let xs : List ℚ := (List.range ys.length).map (fun i => (i : ℚ))
  let xbar : ℚ := xs.sum / n
  let ybar : ℚ := ys.sum / n
  ((xs.zip ys).map (fun p => (p.1 - xbar) * (p.2 - ybar))).sum /
    (xs.map (fun x => (x - xbar) ^ 2)).sum

/-- The labels `previsao_tendencia` can return. -/
inductive Tendencia
  | positivaForte
  | positivaLeve
  | negativaForte
  | negativaLeve
  | estavel
  | coletandoDados
  deriving Repr, DecidableEq

/-- The trend estimator `previsao_tendencia` (src/des.py lines 314-335):
with at least 5 records it classifies the least-squares slope of the last
5 scores through the threshold chain of the code; with fewer it returns the
neutral collecting-data label. -/
def previsao_tendencia (df : List DailyRecord) : Tendencia :=
  if 5 ≤ df.length then
    let ultimos_scores := (scoresOf df).drop (df.length - 5)
    let tendencia := lsSlope ultimos_scores
    if 2 < tendencia then Tendencia.positivaForte
    else if 1/2 < tendencia then Tendencia.positivaLeve
    else if tendencia < -2 then Tendencia.negativaForte
    else if tendencia < -(1/2) then Tendencia.negativaLeve
    else Tendencia.estavel
  else Tendencia.coletandoDados

/-- C7: with fewer than 5 records the estimator returns the neutral
insufficient-data label (and in particular never fails); with at least 5
records, writing `a` for the least-squares slope over the last 5 scores,
the label is strong positive iff `a > 2`, mild positive iff
`0.5 < a ≤ 2`, stable iff `-0.5 ≤ a ≤ 0.5`, mild negative iff
`-2 ≤ a < -0.5`, and strong negative iff `a < -2`. -/
theorem c7_trend_classification (df : List DailyRecord) :
    (df.length < 5 → previsao_tendencia df = Tendencia.coletandoDados)
    ∧ (5 ≤ df.length →
        ((previsao_tendencia df = Tendencia.positivaForte ↔
            2 < lsSlope ((scoresOf df).drop (df.length - 5)))
        ∧ (previsao_tendencia df = Tendencia.positivaLeve ↔
            1/2 < lsSlope ((scoresOf df).drop (df.length - 5))
              ∧ lsSlope ((scoresOf df).drop (df.length - 5)) ≤ 2)
        ∧ (previsao_tendencia df = Tendencia.estavel ↔
            -(1/2) ≤ lsSlope ((scoresOf df).drop (df.length - 5))
              ∧ lsSlope ((scoresOf df).drop (df.length - 5)) ≤ 1/2)
        ∧ (previsao_tendencia df = Tendencia.negativaLeve ↔
            -2 ≤ lsSlope ((scoresOf df).drop (df.length - 5))
              ∧ lsSlope ((scoresOf df).drop (df.length - 5)) < -(1/2))
        ∧ (previsao_tendencia df = Tendencia.negativaForte ↔
            lsSlope ((scoresOf df).drop (df.length - 5)) < -2))) := by
  constructor
  · intro h
    have h5 : ¬ 5 ≤ df.length := by omega
    simp [previsao_tendencia, h5]
  · intro h5
    simp only [previsao_tendencia, if_pos h5]
    set a := lsSlope ((scoresOf df).drop (df.length - 5)) with ha
    split_ifs with h1 h2 h3 h4 <;>
      refine ⟨?_, ?_, ?_, ?_, ?_⟩ <;> simp <;>
      first
        | linarith
        | (intro hx; linarith)
        | (constructor <;> linarith)

/-- Five days with scores 50, 60, 70, 80, 90. -/
def cincoCrescente : List DailyRecord :=
  [⟨0, 0, 0, 0, 0, 0, 0, 0, 50⟩, rec60, rec70, rec80,
   ⟨0, 0, 0, 0, 0, 0, 0, 0, 90⟩]

/-- Five identical days at score 70. -/
def cincoIguais : List DailyRecord := List.replicate 5 rec70

/-- Witness for C7: the strictly increasing scores [50,60,70,80,90] are
classified strong positive (slope 10), five identical scores are
classified stable (slope 0). -/
theorem c7_trend_classification_witness :
    previsao_tendencia cincoCrescente = Tendencia.positivaForte
    ∧ previsao_tendencia cincoIguais = Tendencia.estavel := by
  have h1 := (c7_trend_classification cincoCrescente).2 (by norm_num [cincoCrescente])
  have h2 := (c7_trend_classification cincoIguais).2 (by norm_num [cincoIguais])
  have hs1 : lsSlope ((scoresOf cincoCrescente).drop (cincoCrescente.length - 5)) = 10 := by
    norm_num [lsSlope, scoresOf, cincoCrescente, rec60, rec70, rec80,
      List.range_succ]
  have hs2 : lsSlope ((scoresOf cincoIguais).drop (cincoIguais.length - 5)) = 0 := by
    norm_num [lsSlope, scoresOf, cincoIguais, rec70, List.range_succ,
      List.replicate_succ]
  exact ⟨h1.1.mpr (by rw [hs1]; norm_num),
         h2.2.2.1.mpr (by rw [hs2]; norm_num)⟩

/-- The feature columns `analisar_fatores_influencia` correlates against
the score, in the order the code lists them (src/des.py lines 340-341). -/
def featureValues (df : List DailyRecord) : List (String × List ℚ) :=
  [("Estudo_min", df.map DailyRecord.Estudo_min),
   ("Sono_h", df.map DailyRecord.Sono_h),
   ("Treino_min", df.map DailyRecord.Treino_min),
   ("Bem_estar", df.map DailyRecord.Bem_estar),
   ("Nutricao", df.map DailyRecord.Nutricao),
   ("Motivacao", df.map DailyRecord.Motivacao),
   ("Relacoes", df.map DailyRecord.Relacoes),
   ("Organizacao", df.map DailyRecord.Organizacao)]

/-- The absolute Pearson correlation computed by
`X.corrwith(y).abs()`, represented by its square
`r² = sxy²/(sxx·syy)` so it stays inside `ℚ` (|r| itself needs a square
root; squaring is strictly monotone on non-negative values, so ordering by
`r²` is ordering by `|r|`). `none` models the NaN pandas yields when
either column has zero variance (the `fillna(mean)` in the code is a
no-op here because normalized records hold no NaN). -/
def absCorrSq (xs ys : List ℚ) : Option ℚ :=
  let n : ℚ := (xs.length : ℚ)
  let xbar := xs.sum / n
  let ybar := ys.sum / n
  let sxx := (xs.map (fun x => (x - xbar) ^ 2)).sum
  let syy := (ys.map (fun y => (y - ybar) ^ 2)).sum
  let sxy := ((xs.zip ys).map (fun p => (p.1 - xbar) * (p.2 - ybar))).sum
  if sxx = 0 ∨ syy = 0 then none
  else some (sxy ^ 2 / (sxx * syy))

/-- The named absolute correlations of all eight features with the score. -/
def correlacoesDe (df : List DailyRecord) : List (String × Option ℚ) :=
  (featureValues df).map (fun p => (p.1, absCorrSq p.2 (scoresOf df)))

/-- Descending order on correlation entries by their defined value
(`sort_values(ascending=False)` on the non-NaN part; pandas leaves ties in
an unspecified order and the embedding fixes one — no theorem below
depends on tie order). -/
def corrGe (p q : String × Option ℚ) : Prop := q.2.getD 0 ≤ p.2.getD 0

instance : DecidableRel corrGe := fun p q => by
  unfold corrGe
  infer_instance

/-- `analisar_fatores_influencia` (src/des.py lines 337-358): with more
than 10 records, correlates each feature with the score, sorts by absolute
correlation descending — pandas `sort_values` keeps NaN entries and places
them after all defined values (na_position "last") — and returns the
first 5 rows (`head(5)`); otherwise returns nothing. -/
def analisar_fatores_influencia (df : List DailyRecord) :
    Option (List (String × Option ℚ)) :=
  if 10 < df.length then
    let correlacoes := correlacoesDe df
    some (((correlacoes.filter (fun p => p.2.isSome)).insertionSort corrGe ++
      correlacoes.filter (fun p => p.2.isNone)).take 5)
  else none

/-- One of eleven days whose study minutes and score are `i` and whose
other metrics are the constant 5. -/
def recC8 (i : ℚ) : DailyRecord := ⟨i, 5, 5, 5, 5, 5, 5, 5, i⟩

/-- Eleven days where only study minutes and score vary. -/
def dfC8 : List DailyRecord :=
  [recC8 0, recC8 1, recC8 2, recC8 3, recC8 4, recC8 5, recC8 6, recC8 7,
   recC8 8, recC8 9, recC8 10]

/-- C8 (counterexample): on eleven records where seven of the eight
metrics are constant, the ranking returned by the analyzer contains an
entry with an undefined (NaN) coefficient — zero-variance metrics are not
excluded from the returned result. -/
theorem c8_counterexample :
    ((analisar_fatores_influencia dfC8).getD []).any (fun p => p.2.isNone) = true := by
  norm_num [analisar_fatores_influencia, correlacoesDe, featureValues,
    absCorrSq, scoresOf, dfC8, recC8, List.insertionSort, List.orderedInsert,
    corrGe]

/-- C8 (amended): a zero-variance metric receives an undefined (NaN)
coefficient which is sorted after every defined coefficient; the returned
top-5 therefore contains no undefined entry whenever at least five metrics
have defined coefficients — but with fewer defined metrics undefined
entries do appear in the returned ranking (see the counterexample). -/
theorem c8_top5_defined_when_five_defined (df : List DailyRecord)
    (h : 10 < df.length)
    (h5 : 5 ≤ ((correlacoesDe df).filter (fun p => p.2.isSome)).length) :
    ∃ l, analisar_fatores_influencia df = some l
      ∧ ∀ p ∈ l, p.2.isSome = true := by
  have hlen : 5 ≤ (((correlacoesDe df).filter
      (fun p => p.2.isSome)).insertionSort corrGe).length := by
    rw [(List.perm_insertionSort corrGe _).length_eq]
    exact h5
  refine ⟨(((correlacoesDe df).filter (fun p => p.2.isSome)).insertionSort corrGe ++
      (correlacoesDe df).filter (fun p => p.2.isNone)).take 5, ?_, ?_⟩
  · simp only [analisar_fatores_influencia, if_pos h]
  · intro p hp
    rw [List.take_append_of_le_length hlen] at hp
    have hp2 : p ∈ ((correlacoesDe df).filter
        (fun p => p.2.isSome)).insertionSort corrGe :=
      List.mem_of_mem_take hp
    have hp3 : p ∈ (correlacoesDe df).filter (fun p => p.2.isSome) :=
      (List.perm_insertionSort corrGe _).mem_iff.mp hp2
    exact (List.mem_filter.mp hp3).2

/-- One of eleven days where study, sleep, exercise, wellbeing,
relationships and score all equal `i` while nutrition, motivation and
organization are the constant 5. -/
def recC8w (i : ℚ) : DailyRecord := ⟨i, 5, i, i, i, 5, 5, i, i⟩

/-- Eleven days with five varying feature columns. -/
def dfC8w : List DailyRecord :=
  [recC8w 0, recC8w 1, recC8w 2, recC8w 3, recC8w 4, recC8w 5, recC8w 6,
   recC8w 7, recC8w 8, recC8w 9, recC8w 10]

/-- Witness for the amended C8 on a series with exactly five varying
metrics. -/
theorem c8_top5_defined_when_five_defined_witness :
    ∃ l, analisar_fatores_influencia dfC8w = some l
      ∧ ∀ p ∈ l, p.2.isSome = true :=
  c8_top5_defined_when_five_defined dfC8w (by norm_num [dfC8w])
    (by norm_num [correlacoesDe, featureValues, absCorrSq, scoresOf, dfC8w, recC8w])
